import Mathlib

/-!
Verification of the service-worker request-caching core (`sw.js`) of the
pizzaria-miragem site: the strategy classifier, the three strategy
executors (cache-first, network-first, stale-while-revalidate), and the
install/activate lifecycle steps, shallowly embedded as pure Lean
functions over explicit cache-storage state.

Modelling conventions:
* A network fetch is an oracle `String → Option Response`; `none` models a
  rejected fetch (network failure).  Within one request event the oracle
  is consulted at most once per URL, matching the single `fetch` call in
  each executor.
* `Cache` is an association list from request URL to stored response
  (only GET requests reach the cache code, so the URL alone is the key);
  `CacheStorage` is the list of named caches in creation order, matching
  the order `CacheStorage.match` consults them.
* A JS value that is not a `Response` (the `null` of the background catch
  in stale-while-revalidate, the `undefined` of a missed fallback lookup)
  is modelled as `none` in the executor's `response` field.
* Cache write failure (quota exceeded, storage unavailable) is modelled
  by the boolean `putOk`; `caches.open`, `caches.match` and
  `caches.delete` are treated as total, so the outer catch of
  `staleWhileRevalidate` (sw.js 192-195), reachable only when the cache
  layer itself throws, is not modelled.
-/

namespace SW

/-- An HTTP response as the worker sees it: status code, status text,
headers, and the body bytes. -/
structure Response where
  status : Nat
  statusText : String
  headers : List (String × String)
  body : String
  deriving DecidableEq

/-- An intercepted request: URL, method and destination
(`request.destination`, e.g. `"document"` for page navigations). -/
structure Request where
  url : String
  method : String
  destination : String
  deriving DecidableEq

/-- The three caching strategies of the worker. -/
inductive Strategy where
  | cacheFirst
  | networkFirst
  | staleWhileRevalidate
  deriving DecidableEq

/-- One named cache: request URL keys mapped to stored responses. -/
abbrev Cache := List (String × Response)

/-- The cache storage: named caches in creation order. -/
abbrev CacheStorage := List (String × Cache)

/-- Entry lookup inside a single cache (`cache.match`). -/
def lookupCache : Cache → String → Option Response
  | [], _ => none
  | (k, r) :: t, u => if k = u then some r else lookupCache t u

/-- `caches.match(request)`: search every cache in creation order and
return the first hit. -/
def cacheMatchAll : CacheStorage → String → Option Response
  | [], _ => none
  | (_, c) :: t, u =>
      match lookupCache c u with
      | some r => some r
      | none => cacheMatchAll t u

/-- Whether a cache with the given name exists. -/
def hasCache : CacheStorage → String → Bool
  | [], _ => false
  | (n, _) :: t, name => if n = name then true else hasCache t name

/-- `caches.open(name)`: create the named cache (empty, at the end of the
creation order) if it is absent. -/
def cacheOpen (st : CacheStorage) (name : String) : CacheStorage :=
  if hasCache st name then st else st ++ [(name, [])]

/-- `cache.put`: overwrite-or-insert one entry. -/
def cachePut : Cache → String → Response → Cache
  | [], u, r => [(u, r)]
  | (k, r0) :: t, u, r =>
      if k = u then (u, r) :: t else (k, r0) :: cachePut t u r

/-- Put one entry into the cache with the given name. -/
def cachePutIn : CacheStorage → String → String → Response → CacheStorage
  | [], _, _, _ => []
  | (n, c) :: t, name, u, r =>
      if n = name then (n, cachePut c u r) :: cachePutIn t name u r
      else (n, c) :: cachePutIn t name u r

/-- Entry lookup inside the cache with the given name. -/
def lookupIn : CacheStorage → String → String → Option Response
  | [], _, _ => none
  | (n, c) :: t, name, u =>
      if n = name then lookupCache c u else lookupIn t name u

/-- Substring containment on character lists. -/
def listContains : List Char → List Char → Bool
  | [], pat => pat.isEmpty
  | c :: t, pat => pat.isPrefixOf (c :: t) || listContains t pat

/-- JS `String.prototype.includes`. -/
def strIncludes (s pat : String) : Bool := listContains s.data pat.data

/-- JS `String.prototype.startsWith`. -/
def strStarts (s pat : String) : Bool := pat.data.isPrefixOf s.data

/-- sw.js line 1. -/
def CACHE_NAME : String := "pizzaria-miragem-v1.2"

/-- sw.js line 2: identifier of the static namespace. -/
def STATIC_CACHE : String := "static-v1.2"

/-- sw.js line 3: identifier of the dynamic namespace. -/
def DYNAMIC_CACHE : String := "dynamic-v1.2"

/-- sw.js lines 6-13: the install manifest. -/
def STATIC_ASSETS : List String :=
  ["/", "/index.html", "/styles.css", "/content.html",
   "https://fonts.googleapis.com/css2?family=Poppins:wght@400;500;600;700&family=Playfair+Display:wght@700&display=swap",
   "https://cdnjs.cloudflare.com/ajax/libs/font-awesome/6.4.0/js/all.min.js"]

/-- sw.js lines 16-20: network-first URL patterns. -/
def NETWORK_FIRST : List String :=
  ["/api/", "/contact", "https://www.google.com/maps/"]

/-- sw.js lines 23-27: stale-while-revalidate URL patterns. -/
def STALE_WHILE_REVALIDATE : List String :=
  ["https://fonts.googleapis.com/", "https://fonts.gstatic.com/",
   "https://cdnjs.cloudflare.com/"]

/-- The strategy selection of the fetch listener, sw.js lines 89-101:
first network-first pattern containment, then stale-while-revalidate,
else cache-first. -/
def classify (url : String) : Strategy :=
  if NETWORK_FIRST.any (fun p => strIncludes url p) then .networkFirst
  else if STALE_WHILE_REVALIDATE.any (fun p => strIncludes url p) then
    .staleWhileRevalidate
  else .cacheFirst

/-- The synthetic offline response, sw.js lines 130-136 and 161-167. -/
def offlineResponse : Response :=
  ⟨503, "Service Unavailable", [("Content-Type", "text/plain")], "Offline"⟩

/-- Result of running one of the cache-first / network-first executors:
the value handed to `event.respondWith` (`none` when it is not a
`Response` object), the cache storage afterwards, the number of network
fetches issued, and the console-error log messages. -/
structure ExecResult where
  response : Option Response
  storage : CacheStorage
  fetches : Nat
  logs : List String
  deriving DecidableEq

/-- The catch branch of `cacheFirst`, sw.js lines 124-136: for a document
destination, the result of `caches.match('/index.html')` — which is
`undefined` (here `none`) when the root document is not cached — and the
synthetic offline response otherwise. -/
def cacheFirstFallback (req : Request) (st : CacheStorage) : Option Response :=
  if req.destination = "document" then cacheMatchAll st "/index.html"
  else some offlineResponse

/-- `cacheFirst`, sw.js lines 105-137.  The `await cache.put` sits inside
the `try`, so a failing put (`putOk = false`) lands in the catch branch
and the already-fetched network response is discarded. -/
def cacheFirst (req : Request) (st : CacheStorage)
    (fetchFn : String → Option Response) (putOk : Bool) : ExecResult :=
  match cacheMatchAll st req.url with
  | some r => ⟨some r, st, 0, []⟩
  | none =>
      match fetchFn req.url with
      | none => ⟨cacheFirstFallback req st, st, 1, ["Cache-first strategy failed:"]⟩
      | some nr =>
          if nr.status = 200 then
            if putOk then
              ⟨some nr, cachePutIn (cacheOpen st DYNAMIC_CACHE) DYNAMIC_CACHE req.url nr,
               1, []⟩
            else
              ⟨cacheFirstFallback req (cacheOpen st DYNAMIC_CACHE),
               cacheOpen st DYNAMIC_CACHE, 1, ["Cache-first strategy failed:"]⟩
          else ⟨some nr, st, 1, []⟩

/-- `networkFirst`, sw.js lines 141-168.  As in `cacheFirst`, a failing
`await cache.put` lands in the catch branch, which consults the cache and
falls back to the offline response. -/
def networkFirst (req : Request) (st : CacheStorage)
    (fetchFn : String → Option Response) (putOk : Bool) : ExecResult :=
  match fetchFn req.url with
  | some nr =>
      if nr.status = 200 then
        if putOk then
          ⟨some nr, cachePutIn (cacheOpen st DYNAMIC_CACHE) DYNAMIC_CACHE req.url nr,
           1, []⟩
        else
          ⟨some ((cacheMatchAll (cacheOpen st DYNAMIC_CACHE) req.url).getD offlineResponse),
           cacheOpen st DYNAMIC_CACHE, 1, ["Network-first strategy failed:"]⟩
      else ⟨some nr, st, 1, []⟩
  | none =>
      ⟨some ((cacheMatchAll st req.url).getD offlineResponse), st, 1,
       ["Network-first strategy failed:"]⟩

/-- Result of the stale-while-revalidate executor: the value the caller
receives (`none` models the `null` produced by the background catch),
whether it was the cached copy returned without awaiting the network,
the cache storage after the background refresh has settled, the number
of fetches issued, and the log messages. -/
structure SWRResult where
  response : Option Response
  immediate : Bool
  storage : CacheStorage
  fetches : Nat
  logs : List String
  deriving DecidableEq

/-- `staleWhileRevalidate`, sw.js lines 172-196.  The background chain
puts a status-200 response into the dynamic cache (fire-and-forget: a
failing put only produces an unhandled-rejection log) and resolves to
the network response, or to `null` after a network failure.  The caller
receives the cached copy when one exists, else the background outcome. -/
def staleWhileRevalidate (req : Request) (st : CacheStorage)
    (fetchFn : String → Option Response) (putOk : Bool) : SWRResult :=
  let st1 := cacheOpen st DYNAMIC_CACHE
  let cached := cacheMatchAll st1 req.url
  match fetchFn req.url with
  | some nr =>
      let st2 := if nr.status = 200 then
          (if putOk then cachePutIn st1 DYNAMIC_CACHE req.url nr else st1)
        else st1
      let bgLogs : List String := if nr.status = 200 then
          (if putOk then [] else ["Service Worker unhandled promise rejection:"])
        else []
      match cached with
      | some c => ⟨some c, true, st2, 1, bgLogs⟩
      | none => ⟨some nr, false, st2, 1, bgLogs⟩
  | none =>
      match cached with
      | some c => ⟨some c, true, st1, 1, ["Background fetch failed:"]⟩
      | none => ⟨none, false, st1, 1, ["Background fetch failed:"]⟩

/-- Result of the fetch listener for one intercepted request. -/
structure DispatchResult where
  intercepted : Bool
  strategy : Option Strategy
  response : Option Response
  storage : CacheStorage
  deriving DecidableEq

/-- The fetch listener, sw.js lines 74-102: non-GET requests and URLs not
starting with the literal string `"http"` pass through untouched; the
rest are dispatched to the executor chosen by pattern containment. -/
def handleFetch (req : Request) (st : CacheStorage)
    (fetchFn : String → Option Response) (putOk : Bool) : DispatchResult :=
  if req.method ≠ "GET" then ⟨false, none, none, st⟩
  else if strStarts req.url "http" = false then ⟨false, none, none, st⟩
  else
    match classify req.url with
    | .networkFirst =>
        let r := networkFirst req st fetchFn putOk
        ⟨true, some .networkFirst, r.response, r.storage⟩
    | .staleWhileRevalidate =>
        let r := staleWhileRevalidate req st fetchFn putOk
        ⟨true, some .staleWhileRevalidate, r.response, r.storage⟩
    | .cacheFirst =>
        let r := cacheFirst req st fetchFn putOk
        ⟨true, some .cacheFirst, r.response, r.storage⟩

/-- Result of the install listener. -/
structure InstallResult where
  storage : CacheStorage
  skipWaitingCalled : Bool
  logged : Bool
  installEventFailed : Bool
  fetches : Nat
  deriving DecidableEq

/-- `cache.addAll` fetch phase, sw.js line 37: fetch every manifest URL;
the batch is atomic, so one failure makes the whole operation fail with
nothing stored. -/
def addAllFetch (fetchFn : String → Option Response) :
    List String → Option (List (String × Response))
  | [] => some []
  | u :: t =>
      match fetchFn u, addAllFetch fetchFn t with
      | some r, some rest => some ((u, r) :: rest)
      | _, _ => none

/-- Store a list of fetched entries into the named cache. -/
def putAllIn (name : String) : CacheStorage → List (String × Response) → CacheStorage
  | st, [] => st
  | st, (u, r) :: t => putAllIn name (cachePutIn st name u r) t

/-- The install listener, sw.js lines 30-46: open the static cache,
`addAll` the manifest, then `skipWaiting`.  The chain ends in a catch
that only logs, so the promise given to `event.waitUntil` never rejects:
the install event itself never fails, even when `addAll` does. -/
def installStep (st : CacheStorage) (fetchFn : String → Option Response) : InstallResult :=
  let st1 := cacheOpen st STATIC_CACHE
  match addAllFetch fetchFn STATIC_ASSETS with
  | some entries => ⟨putAllIn STATIC_CACHE st1 entries, true, false, false,
      STATIC_ASSETS.length⟩
  | none => ⟨st1, false, true, false, STATIC_ASSETS.length⟩

/-- Result of the activate listener. -/
structure ActivateResult where
  storage : CacheStorage
  claimCalled : Bool
  deriving DecidableEq

/-- The activate listener, sw.js lines 49-71: delete every cache whose
name differs from both current identifiers, then `clients.claim()`. -/
def activateStep (st : CacheStorage) : ActivateResult :=
  ⟨st.filter (fun p => p.1 == STATIC_CACHE || p.1 == DYNAMIC_CACHE), true⟩

/-- Modelled from the spec: a success status code (the HTTP 2xx class),
used to state the spec's "success status" admission condition for cache
writes. -/
def isSuccessStatus (n : Nat) : Bool := decide (200 ≤ n ∧ n < 300)

/-- Modelled from the spec: the URL carries the http or https scheme. -/
def isHttpScheme (url : String) : Bool :=
  strStarts url "http://" || strStarts url "https://"

/-! ### Supporting lemmas about the cache-storage operations -/

theorem cacheMatchAll_append_empty (st : CacheStorage) (n u : String) :
    cacheMatchAll (st ++ [(n, [])]) u = cacheMatchAll st u := by
  induction st with
  | nil => simp [cacheMatchAll, lookupCache]
  | cons p t ih =>
      obtain ⟨m, c⟩ := p
      simp only [List.cons_append, cacheMatchAll]
      cases lookupCache c u <;> simp [ih]

theorem cacheMatchAll_open (st : CacheStorage) (n u : String) :
    cacheMatchAll (cacheOpen st n) u = cacheMatchAll st u := by
  unfold cacheOpen
  split
  · rfl
  · exact cacheMatchAll_append_empty st n u

theorem hasCache_open (st : CacheStorage) (n : String) :
    hasCache (cacheOpen st n) n = true := by
  unfold cacheOpen
  split
  next h => exact h
  next h =>
    induction st with
    | nil => simp [hasCache]
    | cons p t ih =>
        obtain ⟨m, c⟩ := p
        by_cases hm : m = n <;> simp_all [hasCache]

theorem lookupCache_put (c : Cache) (u : String) (r : Response) :
    lookupCache (cachePut c u r) u = some r := by
  induction c with
  | nil => simp [cachePut, lookupCache]
  | cons p t ih =>
      obtain ⟨k, r0⟩ := p
      by_cases hk : k = u <;> simp [cachePut, lookupCache, hk, ih]

theorem lookupIn_putIn_self (st : CacheStorage) (n u : String) (r : Response)
    (h : hasCache st n = true) :
    lookupIn (cachePutIn st n u r) n u = some r := by
  induction st with
  | nil => simp [hasCache] at h
  | cons p t ih =>
      obtain ⟨m, c⟩ := p
      by_cases hm : m = n
      · simp [cachePutIn, lookupIn, hm, lookupCache_put]
      · simp only [hasCache, if_neg hm] at h
        simp [cachePutIn, lookupIn, hm, ih h]

theorem lookupIn_putIn_open (st : CacheStorage) (n u : String) (r : Response) :
    lookupIn (cachePutIn (cacheOpen st n) n u r) n u = some r :=
  lookupIn_putIn_self _ n u r (hasCache_open st n)

theorem lookupIn_not_has (st : CacheStorage) (n u : String)
    (h : hasCache st n = false) :
    lookupIn st n u = none := by
  induction st with
  | nil => rfl
  | cons p t ih =>
      obtain ⟨m, c⟩ := p
      by_cases hm : m = n <;> simp_all [hasCache, lookupIn]

theorem lookupIn_open (st : CacheStorage) (n u : String) :
    lookupIn (cacheOpen st n) n u = lookupIn st n u := by
  unfold cacheOpen
  split
  next => rfl
  next h =>
    have h' : hasCache st n = false := by
      cases hh : hasCache st n
      · rfl
      · exact absurd hh h
    rw [lookupIn_not_has st n u h']
    clear h
    induction st with
    | nil => simp [lookupIn, lookupCache]
    | cons p t ih =>
        obtain ⟨m, c⟩ := p
        simp only [hasCache] at h'
        by_cases hm : m = n
        · simp [hm] at h'
        · simp only [if_neg hm] at h'
          simp [lookupIn, hm, ih h']

theorem mem_cacheOpen (st : CacheStorage) (n : String) (p : String × Cache)
    (hp : p ∈ cacheOpen st n) : p ∈ st ∨ p = (n, []) := by
  unfold cacheOpen at hp
  split at hp
  · exact Or.inl hp
  · rcases List.mem_append.mp hp with h | h
    · exact Or.inl h
    · exact Or.inr (List.mem_singleton.mp h)

theorem cacheMatchAll_putIn_noshadow (st : CacheStorage) (n u : String) (r : Response)
    (hhas : hasCache st n = true)
    (hns : ∀ p ∈ st, p.1 ≠ n → lookupCache p.2 u = none) :
    cacheMatchAll (cachePutIn st n u r) u = some r := by
  induction st with
  | nil => simp [hasCache] at hhas
  | cons p t ih =>
      obtain ⟨m, c⟩ := p
      by_cases hm : m = n
      · simp [cachePutIn, cacheMatchAll, hm, lookupCache_put]
      · have hc : lookupCache c u = none := hns (m, c) (List.mem_cons_self _ _) hm
        simp only [hasCache, if_neg hm] at hhas
        have hns' : ∀ q ∈ t, q.1 ≠ n → lookupCache q.2 u = none := by
          intro q hq hq1
          exact hns q (List.mem_cons_of_mem _ hq) hq1
        simp [cachePutIn, cacheMatchAll, hm, hc, ih hhas hns']

theorem addAllFetch_none (fetchFn : String → Option Response) (l : List String)
    (u : String) (hu : u ∈ l) (hf : fetchFn u = none) :
    addAllFetch fetchFn l = none := by
  induction l with
  | nil => cases hu
  | cons v t ih =>
      rcases List.mem_cons.mp hu with h | h
      · subst h
        simp [addAllFetch, hf]
      · simp [addAllFetch, ih h]

/-! ### Concrete inputs used by witness and counterexample theorems -/

def respHome : Response := ⟨200, "OK", [], "HOME"⟩

def respPic : Response := ⟨200, "OK", [], "PIC"⟩

def respOld : Response := ⟨200, "OK", [], "OLD"⟩

def respNew : Response := ⟨200, "OK", [], "NEW"⟩

def resp204 : Response := ⟨204, "No Content", [], ""⟩

def resp201 : Response := ⟨201, "Created", [], "MADE"⟩

def fetchNone : String → Option Response := fun _ => none

def fetchHome : String → Option Response := fun _ => some respHome

def fetchPic : String → Option Response := fun _ => some respPic

def fetchNew : String → Option Response := fun _ => some respNew

def fetch204 : String → Option Response := fun _ => some resp204

def fetch201 : String → Option Response := fun _ => some resp201

def fetchBadCss : String → Option Response :=
  fun u => if u = "/styles.css" then none else some respHome

def reqFontsCss : Request :=
  ⟨"https://fonts.googleapis.com/css2?family=Poppins", "GET", "style"⟩

def reqImg : Request := ⟨"https://example.com/pic.png", "GET", "image"⟩

def reqApi : Request := ⟨"https://example.com/api/menu", "GET", ""⟩

def reqLogo : Request := ⟨"https://example.com/images/logo.png", "GET", "image"⟩

def reqIndex : Request := ⟨"/index.html", "GET", "document"⟩

def reqWeird : Request := ⟨"httpx://example.com/a", "GET", ""⟩

def reqPost : Request := ⟨"https://example.com/contact", "POST", ""⟩

def stHome : CacheStorage := [(STATIC_CACHE, [("/index.html", respHome)])]

def stShadow : CacheStorage := [(STATIC_CACHE, [(reqFontsCss.url, respOld)])]

def stDyn : CacheStorage := [(DYNAMIC_CACHE, [(reqFontsCss.url, respOld)])]

/-! ### Claim theorems -/

/-- C5 (confirmed): classification of a GET request URL is deterministic
and returns exactly one strategy — network-first if any network-first
pattern is contained in the URL (checked first), else
stale-while-revalidate if any of its patterns is contained, else
cache-first; in particular a GET http request matching no pattern is
dispatched to the cache-first executor by the fetch listener. -/
theorem c5_classification (url : String) (req : Request) (st : CacheStorage)
    (fetchFn : String → Option Response) (putOk : Bool) :
    (NETWORK_FIRST.any (fun p => strIncludes url p) = true →
        classify url = Strategy.networkFirst) ∧
    (NETWORK_FIRST.any (fun p => strIncludes url p) = false →
      STALE_WHILE_REVALIDATE.any (fun p => strIncludes url p) = true →
        classify url = Strategy.staleWhileRevalidate) ∧
    (NETWORK_FIRST.any (fun p => strIncludes url p) = false →
      STALE_WHILE_REVALIDATE.any (fun p => strIncludes url p) = false →
        classify url = Strategy.cacheFirst) ∧
    (req.method = "GET" → strStarts req.url "http" = true →
      NETWORK_FIRST.any (fun p => strIncludes req.url p) = false →
      STALE_WHILE_REVALIDATE.any (fun p => strIncludes req.url p) = false →
        (handleFetch req st fetchFn putOk).strategy = some Strategy.cacheFirst) := by
  refine ⟨?_, ?_, ?_, ?_⟩
  · intro h1
    simp [classify, h1]
  · intro h1 h2
    simp [classify, h1, h2]
  · intro h1 h2
    simp [classify, h1, h2]
  · intro hm hs h1 h2
    simp [handleFetch, hm, hs, classify, h1, h2]

/-- Witness for C5 at a concrete static-asset URL matching no pattern. -/
theorem c5_classification_witness :
    classify reqLogo.url = Strategy.cacheFirst ∧
    (handleFetch reqLogo [] fetchNone true).strategy = some Strategy.cacheFirst := by
  have h := c5_classification reqLogo.url reqLogo [] fetchNone true
  exact ⟨h.2.2.1 (by decide) (by decide),
         h.2.2.2 rfl (by decide) (by decide) (by decide)⟩

/-- Counterexample to C7: a 201 response is a network success (success
status class), network-first returns its bytes to the caller, yet the
subsequent lookup in the dynamic namespace finds nothing — the
persistence round-trip fails because the code persists only on status
exactly 200. -/
theorem c7_counterexample :
    isSuccessStatus resp201.status = true ∧
    (networkFirst reqApi [] fetch201 true).response = some resp201 ∧
    lookupIn (networkFirst reqApi [] fetch201 true).storage DYNAMIC_CACHE
      reqApi.url = none := by decide

/-- C7 (amended): for a network-first request whose fetch resolves with
a success status, the caller receives exactly the network response
bytes, the response is independent of the prior cache contents (the
cache is never consulted before the fetch), and exactly one fetch is
issued; but the persistence round-trip into the dynamic namespace holds
only when the status is exactly 200 — for any other success status the
dynamic entry for the key is left unchanged. -/
theorem c7_amended (req : Request) (st : CacheStorage)
    (fetchFn : String → Option Response) (nr : Response)
    (h : fetchFn req.url = some nr) (_hsucc : isSuccessStatus nr.status = true) :
    (networkFirst req st fetchFn true).response = some nr ∧
    (∀ st' : CacheStorage, (networkFirst req st' fetchFn true).response = some nr) ∧
    (networkFirst req st fetchFn true).fetches = 1 ∧
    lookupIn (networkFirst req st fetchFn true).storage DYNAMIC_CACHE req.url =
      (if nr.status = 200 then some nr else lookupIn st DYNAMIC_CACHE req.url) := by
  refine ⟨?_, ?_, ?_, ?_⟩
  · by_cases h2 : nr.status = 200 <;> simp [networkFirst, h, h2]
  · intro st'
    by_cases h2 : nr.status = 200 <;> simp [networkFirst, h, h2]
  · by_cases h2 : nr.status = 200 <;> simp [networkFirst, h, h2]
  · by_cases h2 : nr.status = 200 <;>
      simp [networkFirst, h, h2, lookupIn_putIn_open]

/-- Witness for C7 (amended): a 200 network response for an API request
on empty storage is returned and afterwards found in the dynamic
namespace. -/
theorem c7_amended_witness :
    (networkFirst reqApi [] fetchHome true).response = some respHome ∧
    lookupIn (networkFirst reqApi [] fetchHome true).storage DYNAMIC_CACHE
      reqApi.url =
      (if respHome.status = 200 then some respHome
       else lookupIn [] DYNAMIC_CACHE reqApi.url) := by
  have h := c7_amended reqApi [] fetchHome respHome rfl (by decide)
  exact ⟨h.1, h.2.2.2⟩

/-- C8 (confirmed): activation keeps exactly the caches whose identifier
is the current static or dynamic one — every other cache is deleted,
survivors keep their entries untouched — and then claims control of the
open pages. -/
theorem c8_activate_gc (st : CacheStorage) :
    (activateStep st).claimCalled = true ∧
    (∀ nc : String × Cache, nc ∈ (activateStep st).storage ↔
      (nc ∈ st ∧ (nc.1 = STATIC_CACHE ∨ nc.1 = DYNAMIC_CACHE))) := by
  constructor
  · rfl
  · intro nc
    simp only [activateStep, List.mem_filter, Bool.or_eq_true, beq_iff_eq]

/-- C9 (confirmed): a cache-first request whose key is populated in some
namespace returns that entry with zero network fetches and leaves the
storage untouched. -/
theorem c9_cacheFirst_zero_network (req : Request) (st : CacheStorage)
    (fetchFn : String → Option Response) (putOk : Bool) (r : Response)
    (h : cacheMatchAll st req.url = some r) :
    (cacheFirst req st fetchFn putOk).response = some r ∧
    (cacheFirst req st fetchFn putOk).fetches = 0 ∧
    (cacheFirst req st fetchFn putOk).storage = st := by
  refine ⟨?_, ?_, ?_⟩ <;> simp [cacheFirst, h]

/-- Witness for C9: a populated `/index.html` entry is served from the
cache with zero fetches. -/
theorem c9_cacheFirst_zero_network_witness :
    (cacheFirst reqIndex stHome fetchNone true).response = some respHome ∧
    (cacheFirst reqIndex stHome fetchNone true).fetches = 0 := by
  have h := c9_cacheFirst_zero_network reqIndex stHome fetchNone true respHome
    (by decide)
  exact ⟨h.1, h.2.1⟩

theorem cacheFirstFallback_open (req : Request) (st : CacheStorage) (n : String) :
    cacheFirstFallback req (cacheOpen st n) = cacheFirstFallback req st := by
  unfold cacheFirstFallback
  rw [cacheMatchAll_open]

theorem cacheFirstFallback_none (req : Request) (st : CacheStorage)
    (h : cacheFirstFallback req st = none) :
    req.destination = "document" ∧ cacheMatchAll st "/index.html" = none := by
  unfold cacheFirstFallback at h
  split at h
  next hd => exact ⟨hd, h⟩
  next => simp at h

/-- Counterexample to C1: a stale-while-revalidate GET request (the
Google-Fonts stylesheet) with no cached copy and a failing network fetch
is intercepted, yet the caller receives `null` (the value the background
catch resolves to) — not a response object and not a benign fallback. -/
theorem c1_counterexample :
    (handleFetch reqFontsCss [] fetchNone true).intercepted = true ∧
    (handleFetch reqFontsCss [] fetchNone true).strategy =
      some Strategy.staleWhileRevalidate ∧
    (handleFetch reqFontsCss [] fetchNone true).response = none := by decide

/-- C1 (amended): network-first always hands the caller a response
object; cache-first hands back a non-response only when the network path
fails for a document-destination request whose root-document fallback is
absent from every cache; and in stale-while-revalidate with no cached
copy the caller receives exactly the outcome of the network fetch — the
network response on success, but `null` (no response object) on network
failure, the error being caught and logged rather than replaced by a
benign fallback. -/
theorem c1_amended (req : Request) (st : CacheStorage)
    (fetchFn : String → Option Response) (putOk : Bool) :
    (networkFirst req st fetchFn putOk).response.isSome = true ∧
    ((cacheFirst req st fetchFn putOk).response = none →
      req.destination = "document" ∧ cacheMatchAll st req.url = none ∧
      cacheMatchAll st "/index.html" = none) ∧
    (cacheMatchAll st req.url = none →
      (staleWhileRevalidate req st fetchFn putOk).response = fetchFn req.url) := by
  refine ⟨?_, ?_, ?_⟩
  · cases hf : fetchFn req.url with
    | none => simp [networkFirst, hf]
    | some nr =>
        by_cases h2 : nr.status = 200
        · cases putOk <;> simp [networkFirst, hf, h2]
        · simp [networkFirst, hf, h2]
  · intro hnone
    cases hm : cacheMatchAll st req.url with
    | some r => simp [cacheFirst, hm] at hnone
    | none =>
        cases hf : fetchFn req.url with
        | none =>
            simp only [cacheFirst, hm, hf] at hnone
            exact ⟨(cacheFirstFallback_none req st hnone).1, rfl,
                   (cacheFirstFallback_none req st hnone).2⟩
        | some nr =>
            by_cases h2 : nr.status = 200
            · cases putOk with
              | true => simp [cacheFirst, hm, hf, h2] at hnone
              | false =>
                  simp only [cacheFirst, hm, hf, h2, if_true, if_false,
                    Bool.false_eq_true, cacheFirstFallback_open] at hnone
                  exact ⟨(cacheFirstFallback_none req st hnone).1, rfl,
                         (cacheFirstFallback_none req st hnone).2⟩
            · simp [cacheFirst, hm, hf, h2] at hnone
  · intro hm
    have hm1 : cacheMatchAll (cacheOpen st DYNAMIC_CACHE) req.url = none := by
      rw [cacheMatchAll_open]
      exact hm
    cases hf : fetchFn req.url with
    | none => simp [staleWhileRevalidate, hm1, hf]
    | some nr =>
        by_cases h2 : nr.status = 200 <;>
          cases putOk <;> simp [staleWhileRevalidate, hm1, hf, h2]

/-- Witness for C1 (amended) at a concrete image request on empty
storage with a failing network. -/
theorem c1_amended_witness :
    (networkFirst reqImg [] fetchNone true).response.isSome = true ∧
    (staleWhileRevalidate reqImg [] fetchNone true).response =
      fetchNone reqImg.url := by
  have h := c1_amended reqImg [] fetchNone true
  exact ⟨h.1, h.2.2 rfl⟩

/-- Counterexample to C2: when one manifest asset (`/styles.css`) fails
to fetch, the install event does not fail — the promise handed to
`event.waitUntil` resolves, because the chain ends in a catch that only
logs (sw.js 42-44). -/
theorem c2_counterexample :
    fetchBadCss "/styles.css" = none ∧
    "/styles.css" ∈ STATIC_ASSETS ∧
    (installStep [] fetchBadCss).installEventFailed = false := by decide

/-- C2 (amended): if any manifest asset fails to fetch, no asset of the
manifest is cached in the static namespace (atomic all-or-nothing
`addAll`), the failure is logged, each asset is fetched exactly once (no
retry), and skipWaiting is not signalled (it is signalled only on
success); however the install event itself completes successfully — the
error is swallowed by the final catch, so the worker still advances past
install, and the previous worker keeps serving only until this one
activates normally. -/
theorem c2_amended (fetchFn : String → Option Response)
    (h : ∃ u, u ∈ STATIC_ASSETS ∧ fetchFn u = none) :
    (installStep [] fetchFn).installEventFailed = false ∧
    (installStep [] fetchFn).skipWaitingCalled = false ∧
    (installStep [] fetchFn).logged = true ∧
    (installStep [] fetchFn).fetches = STATIC_ASSETS.length ∧
    (installStep [] fetchFn).storage = [(STATIC_CACHE, [])] := by
  obtain ⟨u, hu, hf⟩ := h
  have hn := addAllFetch_none fetchFn STATIC_ASSETS u hu hf
  refine ⟨?_, ?_, ?_, ?_, ?_⟩ <;> simp [installStep, hn, cacheOpen, hasCache]

/-- Witness for C2 (amended): the concrete failing-manifest oracle leaves
the static namespace empty and does not signal skipWaiting. -/
theorem c2_amended_witness :
    (installStep [] fetchBadCss).skipWaitingCalled = false ∧
    (installStep [] fetchBadCss).storage = [(STATIC_CACHE, [])] := by
  have h := c2_amended fetchBadCss ⟨"/styles.css", by decide, by decide⟩
  exact ⟨h.2.1, h.2.2.2.2⟩

/-- Counterexample to C3: in cache-first, a failing cache write after a
successful 200 network fetch lands in the catch branch, so the caller
receives the synthetic offline response instead of the already-obtained
network response. -/
theorem c3_counterexample :
    fetchPic reqImg.url = some respPic ∧
    (cacheFirst reqImg [] fetchPic false).response = some offlineResponse ∧
    offlineResponse ≠ respPic := by decide

/-- C3 (amended): a cache write failure is caught and logged and the
request still completes with some response, but in cache-first and
network-first the already-obtained network response is discarded — the
catch branch takes the offline fallback path (cache-first) or a cache
match falling back to the offline response (network-first); only in
stale-while-revalidate, where the write happens in a detached background
task, is the returned response unaffected by the write failure. -/
theorem c3_amended (req : Request) (st : CacheStorage)
    (fetchFn : String → Option Response) (nr : Response)
    (h : fetchFn req.url = some nr) (h200 : nr.status = 200) :
    (cacheMatchAll st req.url = none →
      (cacheFirst req st fetchFn false).response = cacheFirstFallback req st ∧
      (cacheFirst req st fetchFn false).logs ≠ []) ∧
    ((networkFirst req st fetchFn false).response =
        some ((cacheMatchAll st req.url).getD offlineResponse) ∧
      (networkFirst req st fetchFn false).logs ≠ []) ∧
    ((staleWhileRevalidate req st fetchFn false).response =
      (staleWhileRevalidate req st fetchFn true).response) := by
  refine ⟨?_, ?_, ?_⟩
  · intro hm
    constructor
    · simp [cacheFirst, hm, h, h200, cacheFirstFallback_open]
    · simp [cacheFirst, hm, h, h200]
  · constructor
    · simp [networkFirst, h, h200, cacheMatchAll_open]
    · simp [networkFirst, h, h200]
  · cases hc : cacheMatchAll (cacheOpen st DYNAMIC_CACHE) req.url <;>
      simp [staleWhileRevalidate, h, h200, hc]

/-- Witness for C3 (amended) at a concrete image request whose 200
network response meets a failing cache write. -/
theorem c3_amended_witness :
    (cacheFirst reqImg [] fetchPic false).response =
      cacheFirstFallback reqImg [] ∧
    (networkFirst reqImg [] fetchPic false).response =
      some ((cacheMatchAll [] reqImg.url).getD offlineResponse) ∧
    (staleWhileRevalidate reqImg [] fetchPic false).response =
      (staleWhileRevalidate reqImg [] fetchPic true).response := by
  have h := c3_amended reqImg [] fetchPic respPic rfl rfl
  exact ⟨(h.1 rfl).1, h.2.1.1, h.2.2⟩

/-- Counterexample to C4: a 204 response carries a success status code,
yet network-first does not store it — the storage is left untouched, so
"stored if and only if success status" fails in the only-if-missing
direction (the code tests for status exactly 200). -/
theorem c4_counterexample :
    isSuccessStatus resp204.status = true ∧
    (networkFirst reqApi [] fetch204 true).response = some resp204 ∧
    (networkFirst reqApi [] fetch204 true).storage = [] := by decide

/-- C4 (amended): for every network response obtained by any of the
three strategy executors (with the cache write succeeding), the response
is stored into the dynamic namespace if and only if its status is
exactly 200; any other status — including other success statuses such as
201 or 204 — leaves the dynamic entry for the key unchanged (the put is
skipped). -/
theorem c4_amended (req : Request) (st : CacheStorage)
    (fetchFn : String → Option Response) (nr : Response)
    (h : fetchFn req.url = some nr) :
    (cacheMatchAll st req.url = none →
      lookupIn (cacheFirst req st fetchFn true).storage DYNAMIC_CACHE req.url =
        (if nr.status = 200 then some nr else lookupIn st DYNAMIC_CACHE req.url)) ∧
    (lookupIn (networkFirst req st fetchFn true).storage DYNAMIC_CACHE req.url =
        (if nr.status = 200 then some nr else lookupIn st DYNAMIC_CACHE req.url)) ∧
    (lookupIn (staleWhileRevalidate req st fetchFn true).storage DYNAMIC_CACHE
        req.url =
        (if nr.status = 200 then some nr else lookupIn st DYNAMIC_CACHE req.url)) := by
  refine ⟨?_, ?_, ?_⟩
  · intro hm
    by_cases h2 : nr.status = 200 <;>
      simp [cacheFirst, hm, h, h2, lookupIn_putIn_open]
  · by_cases h2 : nr.status = 200 <;>
      simp [networkFirst, h, h2, lookupIn_putIn_open]
  · by_cases h2 : nr.status = 200 <;>
      cases hc : cacheMatchAll (cacheOpen st DYNAMIC_CACHE) req.url <;>
      simp [staleWhileRevalidate, h, h2, hc, lookupIn_putIn_open, lookupIn_open]

/-- Witness for C4 (amended): a 200 response for an API request on empty
storage is stored into the dynamic namespace. -/
theorem c4_amended_witness :
    lookupIn (networkFirst reqApi [] fetchHome true).storage DYNAMIC_CACHE
      reqApi.url =
      (if respHome.status = 200 then some respHome
       else lookupIn [] DYNAMIC_CACHE reqApi.url) := by
  have h := c4_amended reqApi [] fetchHome respHome rfl
  exact h.2.1

/-- Counterexample to C6: the fonts stylesheet is pre-warmed into the
static cache, which is searched before the dynamic one; after a
stale-while-revalidate refresh writes the new bytes into the dynamic
namespace, a lookup still yields the stale static-cache bytes, not the
new network bytes. -/
theorem c6_counterexample :
    cacheMatchAll stShadow reqFontsCss.url = some respOld ∧
    fetchNew reqFontsCss.url = some respNew ∧
    respNew.status = 200 ∧
    respOld.body ≠ respNew.body ∧
    (staleWhileRevalidate reqFontsCss stShadow fetchNew true).response =
      some respOld ∧
    cacheMatchAll (staleWhileRevalidate reqFontsCss stShadow fetchNew true).storage
      reqFontsCss.url = some respOld ∧
    some respOld ≠ some respNew := by decide

/-- C6 (amended): for a stale-while-revalidate request with an existing
cached entry and a 200 network response with different bytes, the
immediate return equals the stale cached bytes without waiting for the
network, exactly one background refresh is issued, and the refreshed
bytes land in the dynamic namespace; a lookup after the refresh settles
yields the new bytes provided no cache created earlier than the dynamic
one also holds the key — a stale copy in the static namespace shadows
the refreshed entry, and the lookup then still yields the stale bytes. -/
theorem c6_amended (req : Request) (st : CacheStorage)
    (fetchFn : String → Option Response) (old fresh : Response)
    (hc : cacheMatchAll st req.url = some old)
    (hf : fetchFn req.url = some fresh) (h200 : fresh.status = 200)
    (hns : ∀ p ∈ st, p.1 ≠ DYNAMIC_CACHE → lookupCache p.2 req.url = none) :
    (staleWhileRevalidate req st fetchFn true).response = some old ∧
    (staleWhileRevalidate req st fetchFn true).immediate = true ∧
    (staleWhileRevalidate req st fetchFn true).fetches = 1 ∧
    lookupIn (staleWhileRevalidate req st fetchFn true).storage DYNAMIC_CACHE
      req.url = some fresh ∧
    cacheMatchAll (staleWhileRevalidate req st fetchFn true).storage req.url =
      some fresh := by
  have hc1 : cacheMatchAll (cacheOpen st DYNAMIC_CACHE) req.url = some old := by
    rw [cacheMatchAll_open]
    exact hc
  have hns1 : ∀ p ∈ cacheOpen st DYNAMIC_CACHE, p.1 ≠ DYNAMIC_CACHE →
      lookupCache p.2 req.url = none := by
    intro p hp hp1
    rcases mem_cacheOpen st DYNAMIC_CACHE p hp with hin | heq
    · exact hns p hin hp1
    · subst heq
      rfl
  have hmm := cacheMatchAll_putIn_noshadow (cacheOpen st DYNAMIC_CACHE)
    DYNAMIC_CACHE req.url fresh (hasCache_open st DYNAMIC_CACHE) hns1
  refine ⟨?_, ?_, ?_, ?_, ?_⟩ <;>
    simp [staleWhileRevalidate, hc1, hf, h200, lookupIn_putIn_open, hmm]

/-- Witness for C6 (amended): with the stale entry in the dynamic
namespace and no shadowing cache, the immediate return is stale and the
settled lookup yields the new bytes. -/
theorem c6_amended_witness :
    (staleWhileRevalidate reqFontsCss stDyn fetchNew true).response =
      some respOld ∧
    cacheMatchAll (staleWhileRevalidate reqFontsCss stDyn fetchNew true).storage
      reqFontsCss.url = some respNew := by
  have h := c6_amended reqFontsCss stDyn fetchNew respOld respNew (by decide)
    rfl rfl (by decide)
  exact ⟨h.1, h.2.2.2.2⟩

/-- Counterexample to C10: a GET request whose URL has the scheme
`httpx` — not http or https — is nevertheless intercepted, because the
listener only tests `url.startsWith('http')`. -/
theorem c10_counterexample :
    reqWeird.method = "GET" ∧
    isHttpScheme reqWeird.url = false ∧
    (handleFetch reqWeird [] fetchNone true).intercepted = true := by decide

/-- C10 (amended): exactly the GET requests whose URL starts with the
literal string "http" are intercepted — this covers every http/https URL
but also any other scheme beginning with "http"; every other request
(non-GET method, or URL not starting with "http") passes through
untouched with the cache storage unchanged, so a non-GET request is
never written to any namespace by the interception point. -/
theorem c10_amended (req : Request) (st : CacheStorage)
    (fetchFn : String → Option Response) (putOk : Bool) :
    (req.method ≠ "GET" →
      handleFetch req st fetchFn putOk = ⟨false, none, none, st⟩) ∧
    (strStarts req.url "http" = false →
      handleFetch req st fetchFn putOk = ⟨false, none, none, st⟩) ∧
    (req.method = "GET" → strStarts req.url "http" = true →
      (handleFetch req st fetchFn putOk).intercepted = true) := by
  refine ⟨?_, ?_, ?_⟩
  · intro hm
    simp [handleFetch, hm]
  · intro hs
    by_cases hm : req.method = "GET"
    · simp [handleFetch, hm, hs]
    · simp [handleFetch, hm]
  · intro hm hs
    cases hcl : classify req.url <;> simp [handleFetch, hm, hs, hcl]

/-- Witness for C10 (amended): a POST passes through with storage
untouched; a plain https GET is intercepted. -/
theorem c10_amended_witness :
    handleFetch reqPost [] fetchNone true = ⟨false, none, none, []⟩ ∧
    (handleFetch reqLogo [] fetchNone true).intercepted = true := by
  have h1 := c10_amended reqPost [] fetchNone true
  have h2 := c10_amended reqLogo [] fetchNone true
  exact ⟨h1.1 (by decide), h2.2.2 rfl (by decide)⟩

end SW
